import Mathlib

/-!
Shallow embedding of crates/entities/src/lib.rs (TextBuffer / Document over a
ropey::Rope with mpsc-channel observers), together with theorems settling the
specification claims about it.

Modelling conventions:

* A rope's content is `List (List Nat)`: the sequence of the document's
  characters, each character given as the list of its UTF-8 bytes.  This
  representation is forced by ropey's API: `Rope::insert(char_idx, text)`,
  `Rope::remove(char_range)` and `Rope::slice(char_range)` are all indexed in
  *chars* (and panic when the char index is out of bounds), while
  `Rope::len_bytes()` counts bytes; the Rust code passes `position.byte_idx`
  directly into these char-indexed calls.  Keeping chars with their byte
  widths lets both unit systems be expressed.
* A Rust panic (ropey's out-of-bounds panic) is modelled as `Option.none`:
  the call produces no result and no post-state; since ropey bounds-checks
  before mutating and the notification code is never reached after a panic,
  the pre-state is untouched.
* A `tokio::sync::mpsc::Sender<TextBufferChangedEvent>` endpoint is modelled
  as an `ObserverChannel`: `alive` says whether the receiving side is still
  reachable (a `send` on a dead channel returns `Err`), and `received` is
  the ordered list of events delivered on the channel so far.
* Locks (`parking_lot::Mutex`) disappear in the sequential model: each locked
  critical section of the Rust code becomes one atomic step.  For the one
  claim about concurrent dispatch ordering, a small two-task interleaving
  machine is built whose two atomic step kinds are exactly the two critical
  sections of `TextBuffer::insert` (mutate under the content lock; dispatch
  under the observers lock).
-/

namespace RustIDE

/-- One character of the document, as the list of its UTF-8 bytes. -/
abbrev Ch := List Nat

/-- The content of a `ropey::Rope`: the sequence of characters. -/
abbrev Text := List Ch

/-- The byte string a `Text` denotes (what Rust sees as the `str` bytes). -/
def Text.bytes (t : Text) : List Nat := t.flatten

/-- Builds a `Text` from a list of single-byte (ASCII) codes: every char is
one byte wide, so byte and char indices coincide on such texts. -/
def asciiText (bs : List Nat) : Text := bs.map (fun b => [b])

/-- Mirrors `struct TextPosition { byte_idx: usize }`. -/
structure TextPosition where
  byte_idx : Nat
deriving DecidableEq

/-- Mirrors `enum TextBufferChangedEvent` with its two variants. -/
inductive TextBufferChangedEvent where
  | Inserted (start_byte_idx : Nat) (len_bytes : Nat)
  | Removed (start_byte_idx : Nat) (len_bytes : Nat)
deriving DecidableEq

namespace Rope

/-- Mirrors `ropey::Rope::insert(char_idx, text)`: splices `t` at char index
`char_idx`; panics (`none`) iff `char_idx > len_chars`. -/
def insert (r : Text) (char_idx : Nat) (t : Text) : Option Text :=
  if char_idx ≤ r.length then
    some (r.take char_idx ++ t ++ r.drop char_idx)
  else
    none

/-- Mirrors `ropey::Rope::remove(start..stop)`: deletes the chars in
`[start, stop)`; panics (`none`) iff `start > stop` or `stop > len_chars`. -/
def remove (r : Text) (start stop : Nat) : Option Text :=
  if start ≤ stop ∧ stop ≤ r.length then
    some (r.take start ++ r.drop stop)
  else
    none

/-- Mirrors `ropey::Rope::slice(start..stop)` (followed by `.to_string()` in
the Rust code): the chars in `[start, stop)`; panics (`none`) iff
`start > stop` or `stop > len_chars`. -/
def slice (r : Text) (start stop : Nat) : Option Text :=
  if start ≤ stop ∧ stop ≤ r.length then
    some ((r.take stop).drop start)
  else
    none

/-- Mirrors `ropey::Rope::len_bytes()`. -/
def len_bytes (r : Text) : Nat := (Text.bytes r).length

/-- Mirrors `ropey::Rope::len_chars()`. -/
def len_chars (r : Text) : Nat := r.length

end Rope

/-- One observer endpoint, i.e. one `mpsc::Sender<TextBufferChangedEvent>`:
`alive` is whether the receiving half still exists (`send` fails exactly when
it does not), `received` the events delivered on this channel, in order. -/
structure ObserverChannel where
  alive : Bool
  received : List TextBufferChangedEvent
deriving DecidableEq

/-- Mirrors `sender.send(event.clone()).await`: on a live channel the event is
appended to the channel and the send reports success; on a dead channel the
channel is unchanged and the send reports failure. -/
def trySend (s : ObserverChannel) (ev : TextBufferChangedEvent) :
    ObserverChannel × Bool :=
  if s.alive then ({ s with received := s.received ++ [ev] }, true) else (s, false)

/-- Mirrors `TextBuffer::notify_observers`: sends `ev` to every sender in
order, then removes exactly the senders whose send failed (the Rust code
collects the failed indices and removes them in reverse order, which has this
filtering as its net effect). -/
def notify_observers (obs : List ObserverChannel) (ev : TextBufferChangedEvent) :
    List ObserverChannel :=
  match obs with
  | [] => []
  | s :: rest =>
    match trySend s ev with
    | (s', true) => s' :: notify_observers rest ev
    | (_, false) => notify_observers rest ev

/-- Mirrors `struct TextBuffer`: the rope content and the observer senders
(each behind its own mutex in Rust; in the sequential model, plain fields). -/
structure TextBuffer where
  content : Text
  observers : List ObserverChannel
deriving DecidableEq

namespace TextBuffer

/-- Mirrors `TextBuffer::new(initial_text)`. -/
def new (initial_text : Text) : TextBuffer :=
  { content := initial_text, observers := [] }

/-- Mirrors `TextBuffer::insert(position, text)`: performs
`rope.insert(position.byte_idx, text)` under the content lock (so the byte
offset is handed to ropey's char-indexed insert), then notifies observers
with `Inserted { start_byte_idx: position.byte_idx, len_bytes: text.len() }`
where `text.len()` is the *byte* length of the inserted `&str`.  `none`
models the ropey panic on an out-of-bounds char index, in which case nothing
was mutated and no event dispatched. -/
def insert (buf : TextBuffer) (position : TextPosition) (text : Text) :
    Option TextBuffer :=
  match Rope.insert buf.content position.byte_idx text with
  | none => none
  | some newContent =>
    some { content := newContent,
           observers := notify_observers buf.observers
             (.Inserted position.byte_idx (Text.bytes text).length) }

/-- Mirrors `TextBuffer::remove(position, len_bytes)`: performs
`rope.remove(position.byte_idx..(position.byte_idx + len_bytes))` (a
char-indexed range in ropey), then notifies observers with
`Removed { start_byte_idx: position.byte_idx, len_bytes }`.  `none` models
the ropey panic on an out-of-bounds range. -/
def remove (buf : TextBuffer) (position : TextPosition) (len_bytes : Nat) :
    Option TextBuffer :=
  match Rope.remove buf.content position.byte_idx (position.byte_idx + len_bytes) with
  | none => none
  | some newContent =>
    some { content := newContent,
           observers := notify_observers buf.observers
             (.Removed position.byte_idx len_bytes) }

/-- Mirrors `TextBuffer::get_text()`: the full content as a byte string. -/
def get_text (buf : TextBuffer) : List Nat := Text.bytes buf.content

/-- Mirrors `TextBuffer::get_range(start_byte_idx, end_byte_idx)`:
`rope.slice(start..end).to_string()`; `none` models the ropey panic. -/
def get_range (buf : TextBuffer) (start_byte_idx end_byte_idx : Nat) :
    Option (List Nat) :=
  match Rope.slice buf.content start_byte_idx end_byte_idx with
  | none => none
  | some s => some (Text.bytes s)

/-- Mirrors `TextBuffer::len_bytes()`. -/
def len_bytes (buf : TextBuffer) : Nat := Rope.len_bytes buf.content

/-- Mirrors `TextBuffer::add_observer(sender)`: pushes the sender. -/
def add_observer (buf : TextBuffer) (sender : ObserverChannel) : TextBuffer :=
  { buf with observers := buf.observers ++ [sender] }

end TextBuffer

/-- Mirrors `struct Document`. -/
structure Document where
  file_path : Option String
  text_buffer : TextBuffer
  is_dirty : Bool
  language_id : String
deriving DecidableEq

namespace Document

/-- Mirrors `Document::new(file_path, initial_content, language_id)`. -/
def new (file_path : Option String) (initial_content : Text)
    (language_id : String) : Document :=
  { file_path := file_path,
    text_buffer := TextBuffer.new initial_content,
    is_dirty := false,
    language_id := language_id }

/-- Mirrors `Document::set_dirty(dirty)`. -/
def set_dirty (d : Document) (dirty : Bool) : Document :=
  { d with is_dirty := dirty }

/-- Mirrors `Document::get_text_buffer()`. -/
def get_text_buffer (d : Document) : TextBuffer := d.text_buffer

end Document

/-- A text-buffer mutation, as invoked through the `TextBuffer` API. -/
inductive BufOp where
  | ins (position : TextPosition) (text : Text)
  | rem (position : TextPosition) (len_bytes : Nat)
deriving DecidableEq

/-- Applies one mutation through the `TextBuffer` API. -/
def TextBuffer.applyOp (buf : TextBuffer) : BufOp → Option TextBuffer
  | .ins p t => buf.insert p t
  | .rem p l => buf.remove p l

/-- A mutation performed on the buffer a `Document` owns: in Rust the caller
mutates through the shared `Arc<TextBuffer>`, never touching the `Document`'s
other fields, so only the `text_buffer` component of the document state can
change. -/
def Document.applyBufferOp (d : Document) (op : BufOp) : Option Document :=
  match TextBuffer.applyOp d.text_buffer op with
  | none => none
  | some b => some { d with text_buffer := b }

/-- A sequence of buffer mutations on a document's buffer, stopping at the
first panic. -/
def Document.applyBufferOps (d : Document) : List BufOp → Option Document
  | [] => some d
  | op :: rest =>
    match Document.applyBufferOp d op with
    | none => none
    | some d' => Document.applyBufferOps d' rest

/-- One pending `TextBuffer::insert` call of a concurrent task. -/
structure InsOp where
  position : TextPosition
  text : Text
deriving DecidableEq

/-- The event `TextBuffer::insert` builds for this call (byte length of the
inserted text, start index as passed in). -/
def InsOp.event (op : InsOp) : TextBufferChangedEvent :=
  .Inserted op.position.byte_idx (Text.bytes op.text).length

/-- State of two concurrent `insert` calls racing on one buffer.  Each task's
body is two atomic critical sections, exactly as in the Rust code: first the
content-lock section (`lock; rope.insert; drop`), then the observers-lock
section (`notify_observers(event).await`).  `phase* = 0` means the task has
not yet run its mutation, `1` that the mutation completed but the dispatch is
still pending, `2` that the dispatch also ran.  `completed` records the task
ids (1 or 2) in the order their mutations completed. -/
structure ConcState where
  buf : TextBuffer
  phase1 : Nat
  phase2 : Nat
  completed : List Nat
deriving DecidableEq

/-- The initial state of a two-task race: neither task has run a step. -/
def ConcState.start (buf : TextBuffer) : ConcState :=
  { buf := buf, phase1 := 0, phase2 := 0, completed := [] }

/-- Runs the next atomic critical section of task `tid` (`1` runs `op1`, `2`
runs `op2`): its content-lock mutation if that has not happened yet, else its
observers-lock dispatch; `none` if the mutation panics or the task is already
finished (an invalid schedule step). -/
def ConcState.step (op1 op2 : InsOp) (st : ConcState) (tid : Nat) :
    Option ConcState :=
  if tid = 1 then
    if st.phase1 = 0 then
      match Rope.insert st.buf.content op1.position.byte_idx op1.text with
      | none => none
      | some c =>
        some { st with buf := { st.buf with content := c },
                       phase1 := 1,
                       completed := st.completed ++ [1] }
    else if st.phase1 = 1 then
      let b := { st.buf with observers := notify_observers st.buf.observers op1.event }
      some { st with buf := b, phase1 := 2 }
    else none
  else if tid = 2 then
    if st.phase2 = 0 then
      match Rope.insert st.buf.content op2.position.byte_idx op2.text with
      | none => none
      | some c =>
        some { st with buf := { st.buf with content := c },
                       phase2 := 1,
                       completed := st.completed ++ [2] }
    else if st.phase2 = 1 then
      let b := { st.buf with observers := notify_observers st.buf.observers op2.event }
      some { st with buf := b, phase2 := 2 }
    else none
  else none

/-- Runs a whole interleaving: `sched` lists, step by step, which task the
scheduler lets run its next critical section. -/
def ConcState.run (op1 op2 : InsOp) (st : ConcState) : List Nat → Option ConcState
  | [] => some st
  | tid :: rest =>
    match ConcState.step op1 op2 st tid with
    | none => none
    | some st' => ConcState.run op1 op2 st' rest

/-! ## Helper lemmas -/

/-- When every char of a text is at least one byte wide (as every UTF-8 char
is), the char count is at most the byte count. -/
theorem len_chars_le_len_bytes (t : Text) (hwf : ∀ c ∈ t, c ≠ []) :
    Rope.len_chars t ≤ Rope.len_bytes t := by
  induction t with
  | nil => simp [Rope.len_chars, Rope.len_bytes, Text.bytes]
  | cons c rest ih =>
    have hc : c ≠ [] := hwf c (by simp)
    have h1 : 1 ≤ c.length := by
      cases c with
      | nil => exact absurd rfl hc
      | cons x xs => simp
    have h2 := ih (fun d hd => hwf d (by simp [hd]))
    simp only [Rope.len_chars, Rope.len_bytes, Text.bytes, List.flatten_cons,
      List.length_append, List.length_cons] at *
    omega

/-- Dispatch to a set of senders that are all alive delivers the event to
every one of them, in place, and prunes none. -/
theorem notify_observers_all_alive (obs : List ObserverChannel)
    (ev : TextBufferChangedEvent) (h : ∀ o ∈ obs, o.alive = true) :
    notify_observers obs ev =
      obs.map (fun o => { alive := o.alive, received := o.received ++ [ev] }) := by
  induction obs with
  | nil => rfl
  | cons o rest ih =>
    have ho : o.alive = true := h o (by simp)
    have hr := ih (fun x hx => h x (by simp [hx]))
    simp [notify_observers, trySend, ho, hr]

/-! ## Claim theorems -/

/-- Claim C10: a freshly constructed `Document` is clean (`is_dirty` is
`false`) and its text buffer's `get_text()` returns exactly the initial
content's bytes, for every choice of file path, content and language id. -/
theorem new_document_clean_with_initial_text (fp : Option String) (init : Text)
    (lid : String) :
    (Document.new fp init lid).is_dirty = false ∧
      TextBuffer.get_text (Document.new fp init lid).text_buffer = Text.bytes init :=
  ⟨rfl, rfl⟩

/-- Claim C5: starting from `"hello world"` with one registered observer, the
single call `insert(5, " there")` returns normally, delivers exactly the one
event `Inserted { start: 5, len: 6 }` on that observer's channel, and
`get_text()` afterwards returns `"hello there world"` (all byte codes given
in ASCII). -/
theorem hello_world_insert_scenario :
    (((TextBuffer.new (asciiText [104, 101, 108, 108, 111, 32, 119, 111, 114, 108, 100])).add_observer
        { alive := true, received := [] }).insert ⟨5⟩
        (asciiText [32, 116, 104, 101, 114, 101])).map
      (fun b => (TextBuffer.get_text b, b.observers)) =
    some ([104, 101, 108, 108, 111, 32, 116, 104, 101, 114, 101, 32,
           119, 111, 114, 108, 100],
          [{ alive := true,
             received := [TextBufferChangedEvent.Inserted 5 6] }]) := by
  decide

/-- Claim C2 (code bug): the byte offset is *not* interpreted in byte units.
On the one-char content `"é"` (bytes `[195, 169]`), `insert(1, "x")` hands
`1` to ropey's char-indexed insert, so the new char lands after the whole
`"é"`: `get_text()` returns `[195, 169, 120]` (`"éx"`), which differs from
the prior text with `"x"` spliced in at byte offset 1, `[195, 120, 169]`. -/
theorem insert_misinterprets_byte_offset :
    ((TextBuffer.new [[195, 169]]).insert ⟨1⟩ (asciiText [120])).map
        TextBuffer.get_text = some [195, 169, 120] ∧
      [195, 169, 120] ≠
        List.take 1 [195, 169] ++ [120] ++ List.drop 1 [195, 169] := by
  decide

/-- Claim C3 (code bug): the insert/remove round trip fails when the inserted
text is multibyte.  Starting from `"ab"`, `insert(1, "é")` gives `"aéb"`
(chars `[[97], [195, 169], [98]]`); `remove(1, len("é"))` then removes
`len_bytes = 2` *chars*, i.e. `"éb"`, leaving `"a"` instead of restoring
`"ab"`. -/
theorem insert_remove_roundtrip_fails_multibyte :
    (((TextBuffer.new (asciiText [97, 98])).insert ⟨1⟩ [[195, 169]]).bind
        (fun b => b.remove ⟨1⟩ 2)).map TextBuffer.get_text = some [97] ∧
      [97] ≠ [97, 98] := by
  decide

/-- Claim C1 (counterexample): an out-of-range `insert` does not return a
`BoundsError` value to the caller — it panics.  On the empty buffer,
`insert(1, "h")` (position 1 > `len_bytes()` = 0) is `none` in the model:
ropey's bounds check panics, so the call never returns at all, and the code
has no `BoundsError` (or any `Result`) in its signature to return. -/
theorem outOfRange_insert_no_error_return :
    (TextBuffer.new []).insert ⟨1⟩ (asciiText [104]) = none := by
  decide

/-- Claim C1 (amended): every out-of-range `insert`, `remove` or `get_range`
call — position beyond `len_bytes()` for insert, range end beyond
`len_bytes()` for remove, `start > end` or end beyond `len_bytes()` for
`get_range` — panics (modelled as `none`) instead of returning `BoundsError`.
The panic fires inside ropey's bounds check, before any mutation and before
`notify_observers` runs, so no post-state is produced: the pre-state's
content, `len_bytes()` and every observer channel are untouched and no event
is delivered.  The hypothesis that every char is nonempty holds for every
real UTF-8 rope. -/
theorem outOfRange_ops_panic (buf : TextBuffer) (p1 p2 len s e : Nat) (t : Text)
    (hwf : ∀ c ∈ buf.content, c ≠ [])
    (h1 : TextBuffer.len_bytes buf < p1)
    (h2 : TextBuffer.len_bytes buf < p2 + len)
    (h3 : TextBuffer.len_bytes buf < e ∨ e < s) :
    buf.insert ⟨p1⟩ t = none ∧ buf.remove ⟨p2⟩ len = none ∧
      buf.get_range s e = none := by
  have hc : Rope.len_chars buf.content ≤ Rope.len_bytes buf.content :=
    len_chars_le_len_bytes buf.content hwf
  have hcb : buf.content.length ≤ TextBuffer.len_bytes buf := hc
  refine ⟨?_, ?_, ?_⟩
  · have : ¬ p1 ≤ buf.content.length := by omega
    simp [TextBuffer.insert, Rope.insert, this]
  · have : ¬ p2 + len ≤ buf.content.length := by omega
    simp [TextBuffer.remove, Rope.remove, this]
  · have : ¬ (s ≤ e ∧ e ≤ buf.content.length) := by omega
    simp [TextBuffer.get_range, Rope.slice, this]

/-- Concrete instantiation of `outOfRange_ops_panic`: on the one-byte buffer
`"a"`, `insert(2, _)`, `remove(1, 1)` and `get_range(0, 2)` all panic. -/
theorem outOfRange_ops_panic_witness :
    (TextBuffer.new (asciiText [97])).insert ⟨2⟩ (asciiText [98]) = none ∧
      (TextBuffer.new (asciiText [97])).remove ⟨1⟩ 1 = none ∧
      (TextBuffer.new (asciiText [97])).get_range 0 2 = none :=
  outOfRange_ops_panic (TextBuffer.new (asciiText [97])) 2 1 1 0 2
    (asciiText [98]) (by decide) (by decide) (by decide) (by decide)

/-- Claim C4 (counterexample): `insert` does not succeed for every
`pos ≤ len_bytes`.  On the content `"é"` (`len_bytes() = 2`, one char),
`insert(2, "x")` is a valid byte position for the claim (`2 ≤ 2`), yet the
call panics (`none`): ropey bounds-checks `2` against `len_chars() = 1`.
There is also no `Result` in the signature — on success the Rust method
returns `()`. -/
theorem insert_at_lenBytes_panics :
    (TextBuffer.new [[195, 169]]).insert ⟨2⟩ (asciiText [120]) = none := by
  decide

/-- Claim C4 (amended): `insert(pos, text)` returns `()` — there is no
`Result<(), BoundsError>`.  It returns normally, having spliced `text` in at
*char* index `pos` and dispatched the `Inserted` event, exactly when
`pos ≤ len_chars()`, and panics (modelled as `none`) exactly when
`pos > len_chars()`; no clamping occurs. -/
theorem insert_success_iff_charIdx_le_lenChars (buf : TextBuffer) (p : Nat)
    (t : Text) :
    (p ≤ Rope.len_chars buf.content →
      buf.insert ⟨p⟩ t =
        some { content := buf.content.take p ++ t ++ buf.content.drop p,
               observers := notify_observers buf.observers
                 (.Inserted p (Text.bytes t).length) }) ∧
    (Rope.len_chars buf.content < p → buf.insert ⟨p⟩ t = none) := by
  constructor
  · intro h
    simp [TextBuffer.insert, Rope.insert, Rope.len_chars] at *
    simp [h]
  · intro h
    have : ¬ p ≤ buf.content.length := by
      simp [Rope.len_chars] at h
      omega
    simp [TextBuffer.insert, Rope.insert, this]

/-- Concrete instantiation of `insert_success_iff_charIdx_le_lenChars`: on
the buffer `"a"`, `insert(1, "b")` succeeds, splices at the end, and
dispatches into the empty observer set, while `insert(2, "b")` panics. -/
theorem insert_success_iff_charIdx_le_lenChars_witness :
    (TextBuffer.new (asciiText [97])).insert ⟨1⟩ (asciiText [98]) =
        some { content := (asciiText [97]).take 1 ++ asciiText [98] ++
                 (asciiText [97]).drop 1,
               observers := notify_observers []
                 (.Inserted 1 (Text.bytes (asciiText [98])).length) } ∧
      (TextBuffer.new (asciiText [97])).insert ⟨2⟩ (asciiText [98]) = none :=
  ⟨(insert_success_iff_charIdx_le_lenChars (TextBuffer.new (asciiText [97])) 1
      (asciiText [98])).1 (by decide),
   (insert_success_iff_charIdx_le_lenChars (TextBuffer.new (asciiText [97])) 2
      (asciiText [98])).2 (by decide)⟩

/-- Claim C6: when the sole registered observer's receiving side is dropped
(`alive = false`), the next mutation — insert or remove, at any in-range
position — returns normally to its caller (`some`, never an error) and
leaves the subscriber set empty: the dead observer is pruned, so the set
size drops from 1 to 0. -/
theorem dead_observer_pruned_on_mutation (content : Text)
    (rcv : List TextBufferChangedEvent) (p q len : Nat) (t : Text)
    (hp : p ≤ Rope.len_chars content) (hq : q + len ≤ Rope.len_chars content) :
    TextBuffer.insert { content := content, observers := [{ alive := false, received := rcv }] }
        ⟨p⟩ t =
      some { content := content.take p ++ t ++ content.drop p, observers := [] } ∧
    TextBuffer.remove { content := content, observers := [{ alive := false, received := rcv }] }
        ⟨q⟩ len =
      some { content := content.take q ++ content.drop (q + len), observers := [] } := by
  constructor
  · simp [Rope.len_chars] at hp
    simp [TextBuffer.insert, Rope.insert, hp, notify_observers, trySend]
  · simp [Rope.len_chars] at hq
    simp [TextBuffer.remove, Rope.remove, hq, notify_observers, trySend]

/-- Concrete instantiation of `dead_observer_pruned_on_mutation`: on `"ab"`
with one dead observer, `insert(1, "c")` and `remove(0, 1)` both return
normally with an empty observer set. -/
theorem dead_observer_pruned_on_mutation_witness :
    TextBuffer.insert ⟨asciiText [97, 98], [{ alive := false, received := [] }]⟩
        ⟨1⟩ (asciiText [99]) =
      some { content := (asciiText [97, 98]).take 1 ++ asciiText [99] ++
               (asciiText [97, 98]).drop 1,
             observers := [] } ∧
    TextBuffer.remove ⟨asciiText [97, 98], [{ alive := false, received := [] }]⟩
        ⟨0⟩ 1 =
      some { content := (asciiText [97, 98]).take 0 ++ (asciiText [97, 98]).drop (0 + 1),
             observers := [] } :=
  dead_observer_pruned_on_mutation (asciiText [97, 98]) [] 1 0 1 (asciiText [99])
    (by decide) (by decide)

/-- Claim C9 (counterexample): a zero-length insert is not accepted at every
byte position `p ≤ len_bytes()`.  On the content `"é"` (`len_bytes() = 2`,
one char), `insert(2, "")` panics (`none`) because ropey checks the position
against `len_chars() = 1` — so, contrary to the claim, no `Inserted` event is
delivered for this valid byte position and the call never returns. -/
theorem empty_insert_at_lenBytes_panics :
    TextBuffer.insert ⟨[[195, 169]], [{ alive := true, received := [] }]⟩
        ⟨2⟩ [] = none := by
  decide

/-- Claim C9 (amended): for every char position `p ≤ len_chars()` (on
ASCII-only content this is the same as `p ≤ len_bytes()`), `insert(p, "")`
returns normally, leaves the content — hence `get_text()` and `len_bytes()`
— unchanged, and still delivers exactly one `Inserted { start: p, len: 0 }`
event to every registered live observer: the zero-length edit is not
suppressed. -/
theorem empty_insert_not_suppressed (content : Text) (obs : List ObserverChannel)
    (p : Nat) (hp : p ≤ Rope.len_chars content)
    (halive : ∀ o ∈ obs, o.alive = true) :
    TextBuffer.insert { content := content, observers := obs } ⟨p⟩ [] =
      some { content := content,
             observers := obs.map (fun o =>
               { alive := o.alive,
                 received := o.received ++ [TextBufferChangedEvent.Inserted p 0] }) } := by
  simp [Rope.len_chars] at hp
  have hsplice : content.take p ++ ([] : Text) ++ content.drop p = content := by
    simp
  simp [TextBuffer.insert, Rope.insert, hp, hsplice, Text.bytes,
    notify_observers_all_alive obs _ halive]

/-- Concrete instantiation of `empty_insert_not_suppressed`: `insert(1, "")`
on `"a"` with one live observer delivers `Inserted { start: 1, len: 0 }` and
changes nothing. -/
theorem empty_insert_not_suppressed_witness :
    TextBuffer.insert ⟨asciiText [97], [{ alive := true, received := [] }]⟩
        ⟨1⟩ [] =
      some { content := asciiText [97],
             observers := [{ alive := true,
                             received := [TextBufferChangedEvent.Inserted 1 0] }] } :=
  empty_insert_not_suppressed (asciiText [97])
    [{ alive := true, received := [] }] 1 (by decide) (by decide)

/-- One buffer mutation on a document never touches the dirty flag: the Rust
caller mutates through the shared `Arc<TextBuffer>`, and `is_dirty` lives in
a separate field of `Document`. -/
theorem applyBufferOp_preserves_dirty (d : Document) (op : BufOp) (d' : Document)
    (h : Document.applyBufferOp d op = some d') : d'.is_dirty = d.is_dirty := by
  unfold Document.applyBufferOp at h
  cases happ : TextBuffer.applyOp d.text_buffer op with
  | none => rw [happ] at h; exact absurd h (by simp)
  | some b =>
    rw [happ] at h
    simp only [Option.some.injEq] at h
    rw [← h]

/-- Claim C7: for every document and every sequence of `insert`/`remove`
calls on its text buffer, the value of `is_dirty()` afterwards equals its
value before — buffer mutations never touch the flag — while an explicit
`set_dirty(b)` call sets it to `b`. -/
theorem buffer_ops_preserve_dirty (d : Document) (ops : List BufOp)
    (d' : Document) (b : Bool)
    (h : Document.applyBufferOps d ops = some d') :
    d'.is_dirty = d.is_dirty ∧ (Document.set_dirty d' b).is_dirty = b := by
  refine ⟨?_, rfl⟩
  induction ops generalizing d with
  | nil =>
    simp only [Document.applyBufferOps, Option.some.injEq] at h
    rw [h]
  | cons op rest ih =>
    simp only [Document.applyBufferOps] at h
    cases hop : Document.applyBufferOp d op with
    | none => rw [hop] at h; exact absurd h (by simp)
    | some dmid =>
      rw [hop] at h
      exact (ih dmid h).trans (applyBufferOp_preserves_dirty d op dmid hop)

/-- Concrete instantiation of `buffer_ops_preserve_dirty`: on a clean
document over `"a"`, the sequence `insert(1, "b")`, `remove(0, 1)` completes
and leaves `is_dirty()` at `false`, while `set_dirty(true)` flips it. -/
theorem buffer_ops_preserve_dirty_witness :
    (Document.new none (asciiText [97]) (default : String)).applyBufferOps
        [BufOp.ins ⟨1⟩ (asciiText [98]), BufOp.rem ⟨0⟩ 1] =
      some { file_path := none,
             text_buffer := { content := [[98]], observers := [] },
             is_dirty := false,
             language_id := (default : String) } ∧
    ({ file_path := none,
       text_buffer := { content := [[98]], observers := [] },
       is_dirty := false,
       language_id := (default : String) } : Document).is_dirty =
      (Document.new none (asciiText [97]) (default : String)).is_dirty ∧
    (Document.set_dirty { file_path := none,
                          text_buffer := { content := [[98]], observers := [] },
                          is_dirty := false,
                          language_id := (default : String) } true).is_dirty = true :=
  ⟨by decide,
   (buffer_ops_preserve_dirty (Document.new none (asciiText [97]) (default : String))
      [BufOp.ins ⟨1⟩ (asciiText [98]), BufOp.rem ⟨0⟩ 1] _ true (by decide)).1,
   (buffer_ops_preserve_dirty (Document.new none (asciiText [97]) (default : String))
      [BufOp.ins ⟨1⟩ (asciiText [98]), BufOp.rem ⟨0⟩ 1] _ true (by decide)).2⟩

/-- Claim C8 (counterexample): events are not always delivered in the order
the mutations completed.  Two concurrent inserts on `"ab"` under the
schedule mutate₁, mutate₂, dispatch₂, dispatch₁ — legal because each call
releases the content lock before dispatching — complete their mutations in
the order `[1, 2]`, yet the single live subscriber receives
`Inserted { 0, 2 }` (task 2's event) before `Inserted { 0, 1 }` (task 1's),
the reverse of completion order. -/
theorem interleaved_dispatch_reorders_events :
    ConcState.run ⟨⟨0⟩, asciiText [120]⟩ ⟨⟨0⟩, asciiText [121, 122]⟩
        (ConcState.start ⟨asciiText [97, 98], [{ alive := true, received := [] }]⟩)
        [1, 2, 2, 1] =
      some ⟨⟨asciiText [121, 122, 120, 97, 98],
             [{ alive := true,
                received := [TextBufferChangedEvent.Inserted 0 2,
                             TextBufferChangedEvent.Inserted 0 1] }]⟩, 2, 2, [1, 2]⟩ ∧
      [TextBufferChangedEvent.Inserted 0 2, TextBufferChangedEvent.Inserted 0 1] ≠
        [TextBufferChangedEvent.Inserted 0 1, TextBufferChangedEvent.Inserted 0 2] := by
  decide

/-- Claim C8 (amended): for a single live subscriber, events arrive in the
order the mutations completed whenever each mutation's dispatch finishes
before the next mutation's dispatch starts — in particular for sequential
calls, where each `insert` returns (dispatch included) before the next one
begins: two chained inserts append exactly their two events, in call order,
to the subscriber's channel.  Only concurrent executions, where the window
between content-lock release and dispatch lets the dispatches cross, can
reorder delivery. -/
theorem sequential_mutations_deliver_in_order (content : Text)
    (rcv : List TextBufferChangedEvent) (p1 p2 : TextPosition) (t1 t2 : Text)
    (buf' : TextBuffer)
    (h : (TextBuffer.insert ⟨content, [{ alive := true, received := rcv }]⟩ p1 t1).bind
        (fun b => b.insert p2 t2) = some buf') :
    buf'.observers =
      [{ alive := true,
         received := rcv ++
           [TextBufferChangedEvent.Inserted p1.byte_idx (Text.bytes t1).length,
            TextBufferChangedEvent.Inserted p2.byte_idx (Text.bytes t2).length] }] := by
  cases h1 : Rope.insert content p1.byte_idx t1 with
  | none => simp [TextBuffer.insert, h1] at h
  | some c1 =>
    cases h2 : Rope.insert c1 p2.byte_idx t2 with
    | none => simp [TextBuffer.insert, h1, h2] at h
    | some c2 =>
      simp only [TextBuffer.insert, h1, h2, Option.some_bind] at h
      simp only [notify_observers, trySend, if_pos] at h
      rw [Option.some.injEq] at h
      subst h
      simp

/-- Concrete instantiation of `sequential_mutations_deliver_in_order`: on
`"a"` with one live observer, `insert(0, "x")` then `insert(0, "yz")`
delivers `Inserted { 0, 1 }` followed by `Inserted { 0, 2 }`. -/
theorem sequential_mutations_deliver_in_order_witness :
    ({ content := asciiText [121, 122, 120, 97],
       observers := [{ alive := true,
                       received := [TextBufferChangedEvent.Inserted 0 1,
                                    TextBufferChangedEvent.Inserted 0 2] }] } :
        TextBuffer).observers =
      [{ alive := true,
         received := [] ++
           [TextBufferChangedEvent.Inserted 0 1,
            TextBufferChangedEvent.Inserted 0 2] }] :=
  sequential_mutations_deliver_in_order (asciiText [97]) [] ⟨0⟩ ⟨0⟩
    (asciiText [120]) (asciiText [121, 122]) _ (by decide)
